import Mathlib

/-!
Shallow embedding of the taskValidator backend.

The repository holds several near-duplicate Express servers over a relational
store with two tables:

  users (id, username UNIQUE, password, email, image, score)
  tasks (id, title, description, due_date, creator, assignee,
         status DEFAULT Pending, proof)

We embed the request handlers of the two variants the claims cite:

  * `part3_*` : the richest variant, src/unnamed/part_003 (PostgreSQL,
    Cloudinary uploads, nodemailer notifications, scoring).
  * `appjs_*` : src/app.js (SQLite, local-disk uploads, no scoring).
  * `part0_*` : src/unnamed/part_000 (PostgreSQL, approval e-mail, no scoring).

Databases are lists of rows; a SQL `SELECT ... WHERE key = x ... rows[0]`
becomes `List.find?`, and a SQL `UPDATE ... WHERE key = x` becomes a
conditional `List.map` (SQL updates every matching row; keys are unique).
External effects are made explicit parameters: the wall clock of the handler
is an integer `now` (milliseconds, as JavaScript Date comparison reduces to
the numeric value), `due_date` is stored as the parsed numeric value of the
stored date string, and the success of the outbound e-mail transport and of
the Cloudinary upload are Boolean parameters (`emailOk`, and an `Option`
carrying the secure url the upload returned).  bcrypt is modelled by its
contract: `bcryptHash` is a salted injection of the password and
`bcryptCompare` checks the password against the hash.
-/

namespace TV

/-- Model of a bcrypt hash: the hashed password together with its salt.
`bcryptCompare p h` holds exactly when `p` is the password that produced `h`,
which is the contract of `bcrypt.hash` / `bcrypt.compare`. -/
structure BHash where
  pw : String
  salt : Nat
deriving Repr, DecidableEq

def bcryptHash (pw : String) (salt : Nat) : BHash := ⟨pw, salt⟩

def bcryptCompare (pw : String) (h : BHash) : Bool := pw == h.pw

/-- Row of the `users` table.  The in-code `CREATE TABLE` lists only
(id, username, password); the `email`, `image` and `score` columns are used
by every query of the richest variant and are modelled from the spec:
`email`/`image` optional, `score` an integer defaulting to 0. -/
structure User where
  username : String
  password : BHash
  email : Option String
  image : Option String
  score : Int
deriving Repr, DecidableEq

/-- Row of the `tasks` table.  `due_date` holds the numeric value of the
stored date string (JavaScript compares Dates by this value); `proof` is the
`proof TEXT` column, `none` for SQL NULL. -/
structure Task where
  id : Nat
  title : String
  description : String
  due_date : Int
  creator : String
  assignee : String
  status : String
  proof : Option String
deriving Repr, DecidableEq

/-- The persistent store: the two tables. -/
structure DB where
  users : List User
  tasks : List Task
deriving Repr, DecidableEq

/-- An HTTP response: status code and message body. -/
structure Resp where
  status : Nat
  message : String
deriving Repr, DecidableEq

/-- Payload of the signed JWT issued at login: `jwt.sign({ username }, ...)`. -/
structure Token where
  username : String
deriving Repr, DecidableEq

/-- `SELECT * FROM tasks WHERE id = $1`, first row. -/
def findTask (db : DB) (taskId : Nat) : Option Task :=
  db.tasks.find? (fun t => t.id == taskId)

/-- `SELECT * FROM users WHERE username = $1`, first row. -/
def findUser (db : DB) (username : String) : Option User :=
  db.users.find? (fun u => u.username == username)

/-- `SELECT ... FROM tasks JOIN users ON tasks.creator = users.username
WHERE tasks.id = $1`, first row: the task together with its creator row. -/
def findTaskJoinUser (db : DB) (taskId : Nat) : Option (Task × User) :=
  match findTask db taskId with
  | none => none
  | some t =>
    match findUser db t.creator with
    | none => none
    | some u => some (t, u)

/-- `UPDATE tasks SET status = $1 WHERE id = $2`. -/
def updateTaskStatus (db : DB) (taskId : Nat) (st : String) : DB :=
  { db with tasks := db.tasks.map (fun t => if t.id == taskId then { t with status := st } else t) }

/-- `UPDATE tasks SET proof = $1 WHERE id = $2`. -/
def updateTaskProof (db : DB) (taskId : Nat) (url : String) : DB :=
  { db with tasks := db.tasks.map (fun t => if t.id == taskId then { t with proof := some url } else t) }

/-- `UPDATE users SET score = $1 WHERE username = $2`. -/
def updateUserScore (db : DB) (username : String) (s : Int) : DB :=
  { db with users := db.users.map (fun u => if u.username == username then { u with score := s } else u) }

/-- Observation: the stored status of the task with the given id. -/
def taskStatusOf (db : DB) (taskId : Nat) : Option String :=
  (findTask db taskId).map (fun t => t.status)

/-- Observation: the stored proof reference of the task with the given id. -/
def taskProofOf (db : DB) (taskId : Nat) : Option String :=
  (findTask db taskId).bind (fun t => t.proof)

/-- Observation: the stored score of the user with the given username. -/
def scoreOf (db : DB) (username : String) : Option Int :=
  (findUser db username).map (fun u => u.score)

/-- Last step of the validate handler of part_003: if the creator row has an
e-mail, `await transporter.sendMail` runs inside the same `try` as the two
committed writes, so a transport failure falls into the `catch` and the
handler answers 500 — with the writes already performed. -/
def sendOutcome (db : DB) (email : Option String) (emailOk : Bool) : Resp × DB :=
  match email with
  | some _ =>
    if emailOk then (⟨200, "Task validation processed successfully."⟩, db)
    else (⟨500, "Failed to process task validation."⟩, db)
  | none => (⟨200, "Task validation processed successfully."⟩, db)

/-- POST /tasks/:id/validate of src/unnamed/part_003 (lines 350-447).
Checks the decision is Approved or Rejected, loads the task joined with its
creator, and on Approved sets the status and adds 10 (on time) or 5 (late)
to the creator score; on Rejected subtracts 3 and stores status Pending.
The task current status is never consulted. -/
def part3_validate (db : DB) (taskId : Nat) (decision : String) (now : Int) (emailOk : Bool) :
    Resp × DB :=
  if decision = "Approved" ∨ decision = "Rejected" then
    match findTaskJoinUser db taskId with
    | none => (⟨404, "Task not found."⟩, db)
    | some (t, u) =>
      if decision = "Approved" then
        let scoreToAdd : Int := if now ≤ t.due_date then 10 else 5
        let newScore := u.score + scoreToAdd
        let db2 := updateUserScore (updateTaskStatus db taskId "Approved") t.creator newScore
        sendOutcome db2 u.email emailOk
      else
        let newScore := u.score - 3
        let db2 := updateTaskStatus (updateUserScore db t.creator newScore) taskId "Pending"
        sendOutcome db2 u.email emailOk
  else
    (⟨400, "Invalid status."⟩, db)

/-- POST /tasks/:id/validate of src/app.js (lines 193-206): a single
`UPDATE tasks SET status = ? WHERE id = ?` that succeeds (200) whether or
not any row matches. -/
def appjs_validate (db : DB) (taskId : Nat) (decision : String) : Resp × DB :=
  if decision = "Approved" ∨ decision = "Rejected" then
    (⟨200, "Task status updated successfully."⟩, updateTaskStatus db taskId decision)
  else
    (⟨400, "Invalid status."⟩, db)

/-- POST /tasks/:id/validate of src/unnamed/part_000 (lines 274-326):
writes the status first, then on Approved loads the join and awaits the
approval e-mail inside the same `try`, so a transport failure answers 500
after the status write committed. -/
def part0_validate (db : DB) (taskId : Nat) (decision : String) (emailOk : Bool) : Resp × DB :=
  if decision = "Approved" ∨ decision = "Rejected" then
    let db1 := updateTaskStatus db taskId decision
    if decision = "Approved" then
      match findTaskJoinUser db1 taskId with
      | some (_, u) =>
        match u.email with
        | some _ =>
          if emailOk then (⟨200, "Task status updated successfully."⟩, db1)
          else (⟨500, "Failed to update task status."⟩, db1)
        | none => (⟨200, "Task status updated successfully."⟩, db1)
      | none => (⟨200, "Task status updated successfully."⟩, db1)
    else (⟨200, "Task status updated successfully."⟩, db1)
  else
    (⟨400, "Invalid status."⟩, db)

/-- GET /tasks of src/unnamed/part_003 (lines 189-201):
`SELECT * FROM tasks WHERE creator = $1 AND status = 'Pending'`. -/
def part3_listCreated (db : DB) (username : String) : List Task :=
  db.tasks.filter (fun t => t.creator == username && t.status == "Pending")

/-- GET /tasks of src/app.js (lines 157-177):
`SELECT * FROM tasks WHERE assignee = ? OR creator = ? AND status = 'Pending'`.
SQL precedence parses this as `assignee = u OR (creator = u AND
status = 'Pending')`. -/
def appjs_fetchTasks (db : DB) (userToFetch : String) : List Task :=
  db.tasks.filter (fun t => t.assignee == userToFetch || (t.creator == userToFetch && t.status == "Pending"))

/-- POST /register of src/app.js (lines 83-96): hashes the password and runs
`INSERT INTO users (username, password)`; the UNIQUE constraint on username
makes the insert fail on a duplicate, answered 400 "User already exists.". -/
def appjs_register (db : DB) (username pw : String) (salt : Nat) : Resp × DB :=
  if db.users.any (fun u => u.username == username) then
    (⟨400, "User already exists."⟩, db)
  else
    (⟨201, "User registered successfully."⟩,
      { db with users := db.users ++ [⟨username, bcryptHash pw salt, none, none, 0⟩] })

/-- POST /register of src/unnamed/part_003 (lines 112-149): requires an
uploaded image (400 "No image uploaded." without one), uploads it to
Cloudinary (`upload = some url` is the secure url on success, `none` a
rejected upload), hashes the password and inserts the row; every exception
in the `try` — a failed upload or the UNIQUE violation of a duplicate
username — is answered 500 "Registration failed.".  The inserted score
defaults to 0 as the spec states. -/
def part3_register (db : DB) (username pw : String) (salt : Nat)
    (email : Option String) (file : Option String) (upload : Option String) : Resp × DB :=
  match file with
  | none => (⟨400, "No image uploaded."⟩, db)
  | some _ =>
    match upload with
    | none => (⟨500, "Registration failed."⟩, db)
    | some url =>
      if db.users.any (fun u => u.username == username) then
        (⟨500, "Registration failed."⟩, db)
      else
        (⟨201, "User registered successfully."⟩,
          { db with users := db.users ++ [⟨username, bcryptHash pw salt, email, some url, 0⟩] })

/-- POST /login of src/unnamed/part_003 (lines 155-170): loads the user row,
compares the password with the stored hash, and on success signs a token
whose payload is the username. -/
def part3_login (db : DB) (username pw : String) : Except Resp Token :=
  match findUser db username with
  | none => .error ⟨400, "Invalid credentials."⟩
  | some u =>
    if bcryptCompare pw u.password then .ok ⟨username⟩
    else .error ⟨400, "Invalid credentials."⟩

/-- POST /tasks/:id/proof of src/unnamed/part_003 (lines 219-292): requires
a file, uploads it to Cloudinary (`upload` is the returned secure url, or
`none` for a rejected upload, answered 500), stores the url in the proof
column (the update matches zero rows for an unknown id and still succeeds),
then loads the join to notify the creator; the e-mail is awaited inside the
same `try`, so a transport failure answers 500 with the proof committed. -/
def part3_submitProof (db : DB) (taskId : Nat) (file : Option String)
    (upload : Option String) (emailOk : Bool) : Resp × DB :=
  match file with
  | none => (⟨400, "No file uploaded."⟩, db)
  | some _ =>
    match upload with
    | none => (⟨500, "Failed to submit proof."⟩, db)
    | some url =>
      let db1 := updateTaskProof db taskId url
      match findTaskJoinUser db1 taskId with
      | some (_, u) =>
        match u.email with
        | some _ =>
          if emailOk then (⟨200, "Proof submitted successfully."⟩, db1)
          else (⟨500, "Failed to submit proof."⟩, db1)
        | none => (⟨200, "Proof submitted successfully."⟩, db1)
      | none => (⟨200, "Proof submitted successfully."⟩, db1)

/-- GET /tasks/:id/proof of src/unnamed/part_003 (lines 297-309): selects the
proof column and answers 404 when no row matches or the stored proof is
falsy (SQL NULL, or the empty string under JavaScript truthiness). -/
def part3_fetchProof (db : DB) (taskId : Nat) : Except Resp String :=
  match findTask db taskId with
  | none => .error ⟨404, "Proof not found."⟩
  | some t =>
    match t.proof with
    | none => .error ⟨404, "Proof not found."⟩
    | some p => if p = "" then .error ⟨404, "Proof not found."⟩ else .ok p

/-! Concrete sample rows used by the closed witness and counterexample
theorems below. -/

/-- Sample creator with an e-mail address and score 0. -/
def bobMail : User := ⟨"bob", bcryptHash "pw" 0, some "bob@example.com", none, 0⟩

/-- Sample creator without an e-mail address, score 7. -/
def bobPlain : User := ⟨"bob", bcryptHash "pw" 0, none, none, 7⟩

/-- Sample pending task created by bob, assigned to alice, due at time 100. -/
def taskPending : Task := ⟨1, "t", "d", 100, "bob", "alice", "Pending", none⟩

/-- Sample already approved task created by bob. -/
def taskApproved : Task := ⟨1, "t", "d", 100, "bob", "alice", "Approved", none⟩

/-- Sample approved task created by carol but assigned to alice. -/
def taskAssignedAlice : Task := ⟨1, "t", "d", 100, "carol", "alice", "Approved", none⟩

/-- Empty store. -/
def emptyDB : DB := ⟨[], []⟩

/-- Store with bob (no e-mail, score 7) and his pending task. -/
def dbPending : DB := ⟨[bobPlain], [taskPending]⟩

/-- Store with bob (e-mail registered, score 0) and his pending task. -/
def dbPendingMail : DB := ⟨[bobMail], [taskPending]⟩

/-- Store with bob (no e-mail, score 7) and his already approved task. -/
def dbApproved : DB := ⟨[bobPlain], [taskApproved]⟩

/-- Store with a task whose creator carol has no user row. -/
def dbOrphan : DB := ⟨[bobPlain], [taskAssignedAlice]⟩

/-- Store with the single user bob and no tasks. -/
def dbBobOnly : DB := ⟨[bobPlain], []⟩

/-! ### Helper lemmas

SQL UPDATE touches exactly the rows matching its WHERE clause, so lookups on
an updated table are lookups on the original table composed with the row
update; these lemmas record that, together with the fact that an update of
one table leaves the other table untouched. -/

theorem find?_map_ite {α : Type} (p : α → Bool) (f : α → α) (hp : ∀ x, p (f x) = p x)
    (l : List α) :
    (l.map (fun x => if p x then f x else x)).find? p = (l.find? p).map f := by
  induction l with
  | nil => rfl
  | cons a l ih =>
    by_cases h : p a = true
    · simp [List.find?_cons_of_pos _ ((hp a).trans h), List.find?_cons_of_pos _ h, if_pos h]
    · simp [List.find?_cons_of_neg _ h, if_neg h, ih]

theorem map_ite_id {α : Type} (p : α → Bool) (f : α → α) (l : List α)
    (h : l.find? p = none) :
    l.map (fun x => if p x then f x else x) = l := by
  induction l with
  | nil => rfl
  | cons a l ih =>
    rw [List.find?_eq_none] at h
    have ha : ¬ p a = true := h a (List.mem_cons_self a l)
    have hl : l.find? p = none := List.find?_eq_none.mpr (fun x hx => h x (List.mem_cons_of_mem a hx))
    simp only [List.map_cons, if_neg ha]
    rw [ih hl]

theorem find?_append_left_none {α : Type} (p : α → Bool) (l₁ l₂ : List α)
    (h : l₁.find? p = none) :
    (l₁ ++ l₂).find? p = l₂.find? p := by
  rw [List.find?_append, h, Option.none_or]

theorem find?_eq_none_of_any_false {α : Type} (p : α → Bool) (l : List α)
    (h : l.any p = false) :
    l.find? p = none := by
  rw [List.find?_eq_none]
  intro x hx
  exact (List.any_eq_false.mp h) x hx

theorem findTask_updateTaskStatus (db : DB) (taskId : Nat) (st : String) :
    findTask (updateTaskStatus db taskId st) taskId
      = (findTask db taskId).map (fun t => { t with status := st }) := by
  unfold findTask updateTaskStatus
  exact find?_map_ite (fun t => t.id == taskId) (fun t => { t with status := st })
    (fun _ => rfl) db.tasks

theorem findTask_updateTaskProof (db : DB) (taskId : Nat) (url : String) :
    findTask (updateTaskProof db taskId url) taskId
      = (findTask db taskId).map (fun t => { t with proof := some url }) := by
  unfold findTask updateTaskProof
  exact find?_map_ite (fun t => t.id == taskId) (fun t => { t with proof := some url })
    (fun _ => rfl) db.tasks

theorem findUser_updateUserScore (db : DB) (username : String) (s : Int) :
    findUser (updateUserScore db username s) username
      = (findUser db username).map (fun u => { u with score := s }) := by
  unfold findUser updateUserScore
  exact find?_map_ite (fun u => u.username == username) (fun u => { u with score := s })
    (fun _ => rfl) db.users

theorem findTask_updateUserScore (db : DB) (username : String) (s : Int) (taskId : Nat) :
    findTask (updateUserScore db username s) taskId = findTask db taskId := rfl

theorem findUser_updateTaskStatus (db : DB) (taskId : Nat) (st : String) (username : String) :
    findUser (updateTaskStatus db taskId st) username = findUser db username := rfl

theorem taskStatusOf_updateTaskStatus_self (db : DB) (taskId : Nat) (st : String) (t : Task)
    (ht : findTask db taskId = some t) :
    taskStatusOf (updateTaskStatus db taskId st) taskId = some st := by
  unfold taskStatusOf
  rw [findTask_updateTaskStatus, ht]
  rfl

theorem scoreOf_updateUserScore_self (db : DB) (username : String) (s : Int) (u : User)
    (hu : findUser db username = some u) :
    scoreOf (updateUserScore db username s) username = some s := by
  unfold scoreOf
  rw [findUser_updateUserScore, hu]
  rfl

theorem updateTaskStatus_missing (db : DB) (taskId : Nat) (st : String)
    (h : findTask db taskId = none) :
    updateTaskStatus db taskId st = db := by
  have h' : db.tasks.find? (fun t => t.id == taskId) = none := h
  unfold updateTaskStatus
  rw [map_ite_id _ _ _ h']

theorem sendOutcome_snd (db : DB) (e : Option String) (ok : Bool) :
    (sendOutcome db e ok).2 = db := by
  cases e <;> cases ok <;> rfl

theorem sendOutcome_fail_fst (db : DB) (a : String) :
    (sendOutcome db (some a) false).1 = ⟨500, "Failed to process task validation."⟩ := rfl

theorem findTaskJoinUser_eq_some (db : DB) (taskId : Nat) (t : Task) (u : User)
    (ht : findTask db taskId = some t) (hu : findUser db t.creator = some u) :
    findTaskJoinUser db taskId = some (t, u) := by
  simp [findTaskJoinUser, ht, hu]

theorem findTaskJoinUser_none_task (db : DB) (taskId : Nat)
    (ht : findTask db taskId = none) :
    findTaskJoinUser db taskId = none := by
  simp [findTaskJoinUser, ht]

theorem findTaskJoinUser_none_user (db : DB) (taskId : Nat) (t : Task)
    (ht : findTask db taskId = some t) (hu : findUser db t.creator = none) :
    findTaskJoinUser db taskId = none := by
  simp [findTaskJoinUser, ht, hu]

theorem findTaskJoinUser_updateTaskStatus (db : DB) (taskId : Nat) (st : String)
    (t : Task) (u : User)
    (ht : findTask db taskId = some t) (hu : findUser db t.creator = some u) :
    findTaskJoinUser (updateTaskStatus db taskId st) taskId
      = some ({ t with status := st }, u) := by
  have h1 : findTask (updateTaskStatus db taskId st) taskId = some { t with status := st } := by
    rw [findTask_updateTaskStatus, ht]
    rfl
  have h2 : findUser (updateTaskStatus db taskId st) ({ t with status := st } : Task).creator = some u := hu
  exact findTaskJoinUser_eq_some _ _ _ _ h1 h2

theorem part3_validate_approved_eq (db : DB) (taskId : Nat) (t : Task) (u : User)
    (now : Int) (emailOk : Bool)
    (ht : findTask db taskId = some t) (hu : findUser db t.creator = some u) :
    part3_validate db taskId "Approved" now emailOk =
      sendOutcome (updateUserScore (updateTaskStatus db taskId "Approved") t.creator
        (u.score + if now ≤ t.due_date then 10 else 5)) u.email emailOk := by
  have hj := findTaskJoinUser_eq_some db taskId t u ht hu
  simp [part3_validate, hj]

theorem part3_validate_rejected_eq (db : DB) (taskId : Nat) (t : Task) (u : User)
    (now : Int) (emailOk : Bool)
    (ht : findTask db taskId = some t) (hu : findUser db t.creator = some u) :
    part3_validate db taskId "Rejected" now emailOk =
      sendOutcome (updateTaskStatus (updateUserScore db t.creator (u.score - 3))
        taskId "Pending") u.email emailOk := by
  have hj := findTaskJoinUser_eq_some db taskId t u ht hu
  simp [part3_validate, hj]

theorem taskStatusOf_updateUserScore (db : DB) (username : String) (s : Int) (taskId : Nat) :
    taskStatusOf (updateUserScore db username s) taskId = taskStatusOf db taskId := rfl

theorem scoreOf_updateTaskStatus (db : DB) (taskId : Nat) (st : String) (username : String) :
    scoreOf (updateTaskStatus db taskId st) username = scoreOf db username := rfl

theorem part0_validate_approved_email_fail (db : DB) (taskId : Nat) (t : Task) (u : User)
    (e : String)
    (ht : findTask db taskId = some t) (hu : findUser db t.creator = some u)
    (he : u.email = some e) :
    part0_validate db taskId "Approved" false
      = (⟨500, "Failed to update task status."⟩, updateTaskStatus db taskId "Approved") := by
  have hj := findTaskJoinUser_updateTaskStatus db taskId "Approved" t u ht hu
  simp [part0_validate, hj, he]

theorem part3_submitProof_snd (db : DB) (taskId : Nat) (file url : String) (emailOk : Bool) :
    (part3_submitProof db taskId (some file) (some url) emailOk).2
      = updateTaskProof db taskId url := by
  unfold part3_submitProof
  rcases h : findTaskJoinUser (updateTaskProof db taskId url) taskId with _ | ⟨t', u'⟩
  · simp [h]
  · rcases he : u'.email with _ | a
    · simp [h, he]
    · cases emailOk <;> simp [h, he]

/-! ### Claim theorems -/

/-- Claim C1: in the richest variant, validating a pending task whose creator
has a user row with decision Approved stores status Approved and adds exactly
10 to the creator score when the current time is on or before the due date,
and exactly 5 when it is after. -/
theorem part3_validate_approved_scoring (db : DB) (taskId : Nat) (t : Task) (u : User)
    (now : Int) (emailOk : Bool)
    (ht : findTask db taskId = some t)
    (_hpending : t.status = "Pending")
    (hu : findUser db t.creator = some u) :
    taskStatusOf (part3_validate db taskId "Approved" now emailOk).2 taskId = some "Approved"
    ∧ scoreOf (part3_validate db taskId "Approved" now emailOk).2 t.creator
        = some (u.score + if now ≤ t.due_date then 10 else 5) := by
  rw [part3_validate_approved_eq db taskId t u now emailOk ht hu, sendOutcome_snd]
  constructor
  · rw [taskStatusOf_updateUserScore]
    exact taskStatusOf_updateTaskStatus_self db taskId "Approved" t ht
  · exact scoreOf_updateUserScore_self _ _ _ u hu

/-- Witness for C1: bob (score 7) has the pending task 1 due at time 100;
approving at time 50 stores Approved and score 17 (+10), approving at time
200 stores Approved and score 12 (+5). -/
theorem part3_validate_approved_scoring_witness :
    (taskStatusOf (part3_validate dbPending 1 "Approved" 50 true).2 1 = some "Approved"
      ∧ scoreOf (part3_validate dbPending 1 "Approved" 50 true).2 "bob" = some 17)
    ∧ (taskStatusOf (part3_validate dbPending 1 "Approved" 200 true).2 1 = some "Approved"
      ∧ scoreOf (part3_validate dbPending 1 "Approved" 200 true).2 "bob" = some 12) := by
  have h1 := part3_validate_approved_scoring dbPending 1 taskPending bobPlain 50 true
    (by decide) (by decide) (by decide)
  have h2 := part3_validate_approved_scoring dbPending 1 taskPending bobPlain 200 true
    (by decide) (by decide) (by decide)
  constructor
  · simpa [taskPending, bobPlain] using h1
  · simpa [taskPending, bobPlain] using h2

/-- Claim C2: in the richest variant, validating an existing task whose
creator has a user row with decision Rejected stores status Pending (not
Rejected) and subtracts exactly 3 from the creator score, with no floor. -/
theorem part3_validate_rejected_scoring (db : DB) (taskId : Nat) (t : Task) (u : User)
    (now : Int) (emailOk : Bool)
    (ht : findTask db taskId = some t)
    (hu : findUser db t.creator = some u) :
    taskStatusOf (part3_validate db taskId "Rejected" now emailOk).2 taskId = some "Pending"
    ∧ scoreOf (part3_validate db taskId "Rejected" now emailOk).2 t.creator
        = some (u.score - 3) := by
  rw [part3_validate_rejected_eq db taskId t u now emailOk ht hu, sendOutcome_snd]
  constructor
  · exact taskStatusOf_updateTaskStatus_self _ taskId "Pending" t ht
  · rw [scoreOf_updateTaskStatus]
    exact scoreOf_updateUserScore_self _ _ _ u hu

/-- Witness for C2: rejecting the pending task of bob, whose score is 0,
stores status Pending and the negative score -3. -/
theorem part3_validate_rejected_scoring_witness :
    taskStatusOf (part3_validate dbPendingMail 1 "Rejected" 50 true).2 1 = some "Pending"
    ∧ scoreOf (part3_validate dbPendingMail 1 "Rejected" 50 true).2 "bob" = some (-3) := by
  have h := part3_validate_rejected_scoring dbPendingMail 1 taskPending bobMail 50 true
    (by decide) (by decide)
  simpa [taskPending, bobMail] using h

/-- Counterexample for C3: the store dbApproved holds the already approved
task 1 of bob (score 7); a further validate call with decision Rejected
changes the stored status to Pending and the score to 4, so Approved is not
terminal as the claim states. -/
theorem approved_not_terminal_counterexample :
    taskStatusOf (part3_validate dbApproved 1 "Rejected" 0 true).2 1 = some "Pending"
    ∧ scoreOf (part3_validate dbApproved 1 "Rejected" 0 true).2 "bob" = some 4
    ∧ ¬ (taskStatusOf (part3_validate dbApproved 1 "Rejected" 0 true).2 1
            = taskStatusOf dbApproved 1
          ∧ scoreOf (part3_validate dbApproved 1 "Rejected" 0 true).2 "bob"
            = scoreOf dbApproved "bob") := by
  decide

/-- Claim C3 amended: Approved is not terminal.  On an already approved task
(creator with a user row), a further validate with Rejected stores status
Pending and subtracts 3, a further validate with Approved keeps status
Approved but adds 10 or 5 again, and in the app.js variant a further
validate overwrites the status with the new decision (Rejected stores
Rejected). -/
theorem approved_not_terminal_amended (db : DB) (taskId : Nat) (t : Task) (u : User)
    (now : Int) (emailOk : Bool)
    (ht : findTask db taskId = some t)
    (_happ : t.status = "Approved")
    (hu : findUser db t.creator = some u) :
    (taskStatusOf (part3_validate db taskId "Rejected" now emailOk).2 taskId = some "Pending"
      ∧ scoreOf (part3_validate db taskId "Rejected" now emailOk).2 t.creator
          = some (u.score - 3))
    ∧ (taskStatusOf (part3_validate db taskId "Approved" now emailOk).2 taskId = some "Approved"
      ∧ scoreOf (part3_validate db taskId "Approved" now emailOk).2 t.creator
          = some (u.score + if now ≤ t.due_date then 10 else 5))
    ∧ taskStatusOf (appjs_validate db taskId "Rejected").2 taskId = some "Rejected" := by
  refine ⟨?_, ?_, ?_⟩
  · rw [part3_validate_rejected_eq db taskId t u now emailOk ht hu, sendOutcome_snd]
    exact ⟨taskStatusOf_updateTaskStatus_self _ taskId "Pending" t ht,
      by rw [scoreOf_updateTaskStatus]; exact scoreOf_updateUserScore_self _ _ _ u hu⟩
  · rw [part3_validate_approved_eq db taskId t u now emailOk ht hu, sendOutcome_snd]
    refine ⟨?_, scoreOf_updateUserScore_self _ _ _ u hu⟩
    rw [taskStatusOf_updateUserScore]
    exact taskStatusOf_updateTaskStatus_self db taskId "Approved" t ht
  · have h2 : (appjs_validate db taskId "Rejected").2 = updateTaskStatus db taskId "Rejected" := by
      simp [appjs_validate]
    rw [h2]
    exact taskStatusOf_updateTaskStatus_self db taskId "Rejected" t ht

/-- Witness for the amended C3 on the concrete store dbApproved. -/
theorem approved_not_terminal_amended_witness :
    (taskStatusOf (part3_validate dbApproved 1 "Rejected" 0 true).2 1 = some "Pending"
      ∧ scoreOf (part3_validate dbApproved 1 "Rejected" 0 true).2 "bob" = some 4)
    ∧ (taskStatusOf (part3_validate dbApproved 1 "Approved" 0 true).2 1 = some "Approved"
      ∧ scoreOf (part3_validate dbApproved 1 "Approved" 0 true).2 "bob" = some 17)
    ∧ taskStatusOf (appjs_validate dbApproved 1 "Rejected").2 1 = some "Rejected" := by
  have h := approved_not_terminal_amended dbApproved 1 taskApproved bobPlain 0 true
    (by decide) (by decide) (by decide)
  simpa [taskApproved, bobPlain] using h

/-- Counterexample for C4: bob has a registered e-mail; approving his pending
task with a failing mail transport answers status 500, not success, even
though the status and score writes committed. -/
theorem email_failure_counterexample :
    (part3_validate dbPendingMail 1 "Approved" 50 false).1.status = 500
    ∧ (part3_validate dbPendingMail 1 "Approved" 50 false).1.status ≠ 200
    ∧ taskStatusOf (part3_validate dbPendingMail 1 "Approved" 50 false).2 1 = some "Approved"
    ∧ scoreOf (part3_validate dbPendingMail 1 "Approved" 50 false).2 "bob" = some 10 := by
  decide

/-- Claim C4 amended: when the status and score writes succeed but the
outbound notification fails, validate answers failure (500) to the caller —
the e-mail is awaited inside the same try block — while the committed status
and score changes remain in place, in the richest variant for both decisions
and in the part_000 variant for Approved. -/
theorem email_failure_still_commits_amended (db : DB) (taskId : Nat) (t : Task) (u : User)
    (now : Int) (e : String)
    (ht : findTask db taskId = some t)
    (hu : findUser db t.creator = some u)
    (he : u.email = some e) :
    ((part3_validate db taskId "Approved" now false).1.status = 500
      ∧ taskStatusOf (part3_validate db taskId "Approved" now false).2 taskId = some "Approved"
      ∧ scoreOf (part3_validate db taskId "Approved" now false).2 t.creator
          = some (u.score + if now ≤ t.due_date then 10 else 5))
    ∧ ((part3_validate db taskId "Rejected" now false).1.status = 500
      ∧ taskStatusOf (part3_validate db taskId "Rejected" now false).2 taskId = some "Pending"
      ∧ scoreOf (part3_validate db taskId "Rejected" now false).2 t.creator
          = some (u.score - 3))
    ∧ ((part0_validate db taskId "Approved" false).1.status = 500
      ∧ taskStatusOf (part0_validate db taskId "Approved" false).2 taskId = some "Approved") := by
  refine ⟨⟨?_, ?_, ?_⟩, ⟨?_, ?_, ?_⟩, ?_, ?_⟩
  · rw [part3_validate_approved_eq db taskId t u now false ht hu, he, sendOutcome_fail_fst]
  · rw [part3_validate_approved_eq db taskId t u now false ht hu, sendOutcome_snd,
      taskStatusOf_updateUserScore]
    exact taskStatusOf_updateTaskStatus_self db taskId "Approved" t ht
  · rw [part3_validate_approved_eq db taskId t u now false ht hu, sendOutcome_snd]
    exact scoreOf_updateUserScore_self _ _ _ u hu
  · rw [part3_validate_rejected_eq db taskId t u now false ht hu, he, sendOutcome_fail_fst]
  · rw [part3_validate_rejected_eq db taskId t u now false ht hu, sendOutcome_snd]
    exact taskStatusOf_updateTaskStatus_self _ taskId "Pending" t ht
  · rw [part3_validate_rejected_eq db taskId t u now false ht hu, sendOutcome_snd,
      scoreOf_updateTaskStatus]
    exact scoreOf_updateUserScore_self _ _ _ u hu
  · rw [part0_validate_approved_email_fail db taskId t u e ht hu he]
  · rw [part0_validate_approved_email_fail db taskId t u e ht hu he]
    exact taskStatusOf_updateTaskStatus_self db taskId "Approved" t ht

/-- Witness for the amended C4 on the concrete store dbPendingMail. -/
theorem email_failure_still_commits_amended_witness :
    ((part3_validate dbPendingMail 1 "Approved" 50 false).1.status = 500
      ∧ taskStatusOf (part3_validate dbPendingMail 1 "Approved" 50 false).2 1 = some "Approved"
      ∧ scoreOf (part3_validate dbPendingMail 1 "Approved" 50 false).2 "bob" = some 10)
    ∧ ((part3_validate dbPendingMail 1 "Rejected" 50 false).1.status = 500
      ∧ taskStatusOf (part3_validate dbPendingMail 1 "Rejected" 50 false).2 1 = some "Pending"
      ∧ scoreOf (part3_validate dbPendingMail 1 "Rejected" 50 false).2 "bob" = some (-3))
    ∧ ((part0_validate dbPendingMail 1 "Approved" false).1.status = 500
      ∧ taskStatusOf (part0_validate dbPendingMail 1 "Approved" false).2 1 = some "Approved") := by
  have h := email_failure_still_commits_amended dbPendingMail 1 taskPending bobMail 50
    "bob@example.com" (by decide) (by decide) (by decide)
  simpa [taskPending, bobMail] using h

/-- Counterexample for C5: in the app.js variant, validating a taskId with no
matching task answers 200 success, not NotFound, though nothing changes. -/
theorem validate_missing_task_counterexample :
    (appjs_validate emptyDB 1 "Approved").1 = ⟨200, "Task status updated successfully."⟩
    ∧ (appjs_validate emptyDB 1 "Approved").1.status ≠ 404
    ∧ (appjs_validate emptyDB 1 "Approved").2 = emptyDB := by
  decide

/-- Claim C5 amended: for a taskId with no matching task, the richest variant
answers NotFound (404) and returns the store unchanged, while the app.js
variant answers success (200) and also leaves every task and every user score
unchanged. -/
theorem validate_missing_task_amended (db : DB) (taskId : Nat) (dec : String)
    (now : Int) (emailOk : Bool)
    (hdec : dec = "Approved" ∨ dec = "Rejected")
    (hmiss : findTask db taskId = none) :
    part3_validate db taskId dec now emailOk = (⟨404, "Task not found."⟩, db)
    ∧ appjs_validate db taskId dec = (⟨200, "Task status updated successfully."⟩, db) := by
  have hj := findTaskJoinUser_none_task db taskId hmiss
  have hupd := updateTaskStatus_missing db taskId dec hmiss
  constructor
  · rcases hdec with h | h <;> subst h <;> simp [part3_validate, hj]
  · unfold appjs_validate
    rw [if_pos hdec, hupd]

/-- Witness for the amended C5 on the empty store. -/
theorem validate_missing_task_amended_witness :
    part3_validate emptyDB 7 "Rejected" 0 true = (⟨404, "Task not found."⟩, emptyDB)
    ∧ appjs_validate emptyDB 7 "Rejected" = (⟨200, "Task status updated successfully."⟩, emptyDB) := by
  exact validate_missing_task_amended emptyDB 7 "Rejected" 0 true (Or.inr rfl) (by decide)

/-- Counterexample for C6: the store dbOrphan holds an Approved task created
by carol and assigned to alice; the app.js GET /tasks query for alice
returns it although alice is not its creator and it is not Pending. -/
theorem listCreated_assignee_leak_counterexample :
    taskAssignedAlice ∈ appjs_fetchTasks dbOrphan "alice"
    ∧ taskAssignedAlice.creator ≠ "alice"
    ∧ taskAssignedAlice.status ≠ "Pending" := by
  decide

/-- Claim C6 amended: in the richest variant, listCreated(username) returns
exactly the tasks with that creator and status Pending; in the app.js
variant, GET /tasks additionally returns every task whose assignee equals
the username regardless of status, because SQL parses the filter as
assignee = u OR (creator = u AND status = Pending). -/
theorem listCreated_membership_amended (db : DB) (username : String) (t : Task) :
    (t ∈ part3_listCreated db username
      ↔ t ∈ db.tasks ∧ t.creator = username ∧ t.status = "Pending")
    ∧ (t ∈ appjs_fetchTasks db username
      ↔ t ∈ db.tasks ∧ (t.assignee = username ∨ (t.creator = username ∧ t.status = "Pending"))) := by
  constructor
  · simp [part3_listCreated, List.mem_filter, and_assoc]
  · simp [appjs_fetchTasks, List.mem_filter, and_assoc]

/-- Counterexample for C7: registering the already taken username bob in the
richest variant fails with the generic 500 "Registration failed." response,
not with the 400 "User already exists." AlreadyExists response the claim
names (the record is nonetheless untouched). -/
theorem duplicate_register_counterexample :
    part3_register dbBobOnly "bob" "pw2" 1 none (some "img") (some "url")
      = (⟨500, "Registration failed."⟩, dbBobOnly)
    ∧ (⟨500, "Registration failed."⟩ : Resp) ≠ ⟨400, "User already exists."⟩ := by
  decide

/-- Claim C7 amended: registering a duplicate username always fails and
leaves the users table — hence the existing record — unchanged; the app.js
variant answers 400 "User already exists." (AlreadyExists) while the richest
variant collapses the UNIQUE violation into the generic 500
"Registration failed.". -/
theorem duplicate_register_fails_amended (db : DB) (username pw : String) (salt : Nat)
    (email : Option String) (img url : String)
    (hdup : db.users.any (fun u => u.username == username) = true) :
    appjs_register db username pw salt = (⟨400, "User already exists."⟩, db)
    ∧ part3_register db username pw salt email (some img) (some url)
        = (⟨500, "Registration failed."⟩, db) := by
  constructor
  · unfold appjs_register
    rw [if_pos hdup]
  · simp [part3_register, hdup]

/-- Witness for the amended C7: bob is already registered in dbBobOnly. -/
theorem duplicate_register_fails_amended_witness :
    appjs_register dbBobOnly "bob" "pw2" 1 = (⟨400, "User already exists."⟩, dbBobOnly)
    ∧ part3_register dbBobOnly "bob" "pw2" 1 (some "b@x") (some "img") (some "url")
        = (⟨500, "Registration failed."⟩, dbBobOnly) :=
  duplicate_register_fails_amended dbBobOnly "bob" "pw2" 1 (some "b@x") "img" "url" (by decide)

/-- Counterexample for C8: in the richest variant a registration without an
uploaded avatar image fails with 400 "No image uploaded.", so the avatar is
not optional as the claim states. -/
theorem register_no_image_counterexample :
    part3_register emptyDB "alice" "pw" 0 none none (some "url")
      = (⟨400, "No image uploaded."⟩, emptyDB)
    ∧ (400 : Nat) ≠ 201 := by
  decide

/-- Claim C8 amended: for every registration with a previously unused
username, a password and an uploaded avatar image that the artifact store
accepts (e-mail optional), register succeeds (201), and a subsequent login
with the same username and password succeeds with a token asserting that
username. -/
theorem register_then_login_amended (db : DB) (username pw : String) (salt : Nat)
    (email : Option String) (img url : String)
    (hfresh : db.users.any (fun u => u.username == username) = false) :
    (part3_register db username pw salt email (some img) (some url)).1
      = ⟨201, "User registered successfully."⟩
    ∧ part3_login (part3_register db username pw salt email (some img) (some url)).2 username pw
      = .ok ⟨username⟩ := by
  have hfind : db.users.find? (fun u => u.username == username) = none :=
    find?_eq_none_of_any_false _ _ hfresh
  constructor
  · simp [part3_register, hfresh]
  · have hsnd : (part3_register db username pw salt email (some img) (some url)).2
        = { db with users := db.users ++ [⟨username, bcryptHash pw salt, email, some url, 0⟩] } := by
      simp [part3_register, hfresh]
    have hfu : findUser
          { db with users := db.users ++ [⟨username, bcryptHash pw salt, email, some url, 0⟩] }
          username
        = some ⟨username, bcryptHash pw salt, email, some url, 0⟩ := by
      show (db.users ++ [(⟨username, bcryptHash pw salt, email, some url, 0⟩ : User)]).find?
          (fun u => u.username == username) = _
      rw [find?_append_left_none _ _ _ hfind]
      simp [List.find?_cons]
    rw [hsnd]
    simp only [part3_login, hfu]
    simp [bcryptCompare, bcryptHash]

/-- Witness for the amended C8: alice registers on the empty store and then
logs in with the same credentials. -/
theorem register_then_login_amended_witness :
    (part3_register emptyDB "alice" "pw" 0 (some "a@x") (some "img") (some "url")).1
      = ⟨201, "User registered successfully."⟩
    ∧ part3_login (part3_register emptyDB "alice" "pw" 0 (some "a@x") (some "img") (some "url")).2
        "alice" "pw" = .ok ⟨"alice"⟩ :=
  register_then_login_amended emptyDB "alice" "pw" 0 (some "a@x") "img" "url" (by decide)

/-- Claim C9: fetchProof on a task whose proof column was never written
answers NotFound (404); and after a submitProof that stored the reference
url on an existing task, fetchProof on that task answers exactly url
(round-trip).  The reference stored by a successful upload is a Cloudinary
secure url, hence nonempty. -/
theorem proof_roundtrip (db : DB) (taskId : Nat) (t : Task) (file url : String)
    (emailOk : Bool)
    (ht : findTask db taskId = some t)
    (hurl : url ≠ "") :
    (t.proof = none → part3_fetchProof db taskId = .error ⟨404, "Proof not found."⟩)
    ∧ part3_fetchProof (part3_submitProof db taskId (some file) (some url) emailOk).2 taskId
        = .ok url := by
  constructor
  · intro hp
    simp [part3_fetchProof, ht, hp]
  · rw [part3_submitProof_snd]
    have h2 : findTask (updateTaskProof db taskId url) taskId
        = some { t with proof := some url } := by
      rw [findTask_updateTaskProof, ht]
      rfl
    simp [part3_fetchProof, h2, hurl]

/-- Witness for C9: task 1 of dbPending has no proof, so fetchProof answers
404; after submitting a proof stored as "url", fetchProof answers "url". -/
theorem proof_roundtrip_witness :
    part3_fetchProof dbPending 1 = .error ⟨404, "Proof not found."⟩
    ∧ part3_fetchProof (part3_submitProof dbPending 1 (some "img") (some "url") true).2 1
        = .ok "url" := by
  have h := proof_roundtrip dbPending 1 taskPending "img" "url" true (by decide) (by decide)
  exact ⟨h.1 (by decide), h.2⟩

/-- Claim C10: in the richest variant, validating an existing task whose
creator username has no user row answers NotFound (404) exactly as for a
missing task — the inner join yields no rows — and the store is returned
unchanged. -/
theorem validate_missing_creator (db : DB) (taskId : Nat) (t : Task) (dec : String)
    (now : Int) (emailOk : Bool)
    (hdec : dec = "Approved" ∨ dec = "Rejected")
    (ht : findTask db taskId = some t)
    (hu : findUser db t.creator = none) :
    part3_validate db taskId dec now emailOk = (⟨404, "Task not found."⟩, db) := by
  have hj := findTaskJoinUser_none_user db taskId t ht hu
  rcases hdec with h | h <;> subst h <;> simp [part3_validate, hj]

/-- Witness for C10: the task of dbOrphan exists but its creator carol has
no user row, so validate answers 404 and leaves the store unchanged. -/
theorem validate_missing_creator_witness :
    part3_validate dbOrphan 1 "Approved" 0 true = (⟨404, "Task not found."⟩, dbOrphan) :=
  validate_missing_creator dbOrphan 1 taskAssignedAlice "Approved" 0 true (Or.inl rfl)
    (by decide) (by decide)

end TV
